import Mathlib

/-!
Shallow embedding of the data layer of the mesi_takip_web application
(salary / overtime / leave tracking): the entity services
(`SalaryService`, `OvertimeService`, `LeaveService`), the reducer-based
state store (`NanoDataContext`), the local IndexedDB adapter
(`NanoDatabase`, `browserDatabase.ts`) and the error taxonomy
(`errorHandler.ts`).

Asynchronous backend round trips are modelled by passing the backend's
response (`Except SupabaseError _`) as an explicit argument; a thrown
error is the `.error` constructor.
-/

namespace MesiTakip

/-- Status union type `'pending' | 'approved' | 'rejected'`. -/
inductive Status
  | pending
  | approved
  | rejected
  deriving DecidableEq, Repr

/-- JavaScript `x || d` on a number: `x` when truthy (nonzero), else `d`. -/
def jsOrInt (x d : Int) : Int := if x = 0 then d else x

/-- JavaScript `x || d` on a nullable number column (`data.overtime_pay || 0`). -/
def jsOrOptInt (x : Option Int) (d : Int) : Int :=
  match x with
  | none => d
  | some v => jsOrInt v d

/-- JavaScript `x || d` on a string: `x` when truthy (nonempty), else `d`. -/
def jsOrStr (x d : String) : String := if x = "" then d else x

/-- JavaScript `x || d` on a nullable string column (`data.reason || ''`). -/
def jsOrOptStr (x : Option String) (d : String) : String :=
  match x with
  | none => d
  | some s => jsOrStr s d

/-- JavaScript truthiness guard `if (updates.f) ...` on an optional string
field: the field participates only when present and nonempty. -/
def truthyStr (x : Option String) : Option String :=
  match x with
  | none => none
  | some s => if s = "" then none else some s

/-- JavaScript truthiness guard `if (updates.f) ...` on an optional numeric
field: the field participates only when present and nonzero. -/
def truthyInt (x : Option Int) : Option Int :=
  match x with
  | none => none
  | some n => if n = 0 then none else some n

/-- JavaScript truthiness guard on an optional `Status` field: the three
status literals are nonempty strings, hence always truthy. -/
def truthyStatus (x : Option Status) : Option Status := x

/-- `parseInt` on a string that the service already checked to be truthy;
a non-numeric string (JavaScript `NaN`) is modelled as `0`. -/
def parseIntJs (s : String) : Int := (s.toInt?).getD 0

/-- An error value returned by the backend client (`{ code, message }`). -/
structure SupabaseError where
  code : String
  message : String
  deriving DecidableEq, Repr

/-! ### Wire rows (snake_case, as stored by the backend) -/

/-- Wire row of the `salaries` table. `overtime_pay` is nullable
(`REAL DEFAULT 0`). The service's update path also writes an `updated_at`
column, carried here as a plain field. -/
structure SalaryRow where
  id : String
  user_id : String
  base_salary : Int
  overtime_pay : Option Int
  payment_date : String
  month : Int
  year : Int
  created_at : String
  updated_at : String
  deriving DecidableEq, Repr

/-- Wire row of the `overtimes` table; `reason` is nullable. -/
structure OvertimeRow where
  id : String
  user_id : String
  date : String
  hours : Int
  reason : Option String
  status : Status
  created_at : String
  deriving DecidableEq, Repr

/-- Wire row of the `leaves` table. -/
structure LeaveRow where
  id : String
  user_id : String
  start_date : String
  end_date : String
  type : String
  status : Status
  created_at : String
  deriving DecidableEq, Repr

/-! ### Internal (camelCase) entity shapes -/

/-- Internal `User` shape produced by `UserService`. -/
structure User where
  id : String
  email : String
  name : String
  employeeType : String
  startDate : String
  createdAt : String
  updatedAt : String
  deriving DecidableEq, Repr

/-- Internal `Salary` shape produced by `SalaryService` (months and years
are stringified; `grossSalary` and `netSalary` are derived). -/
structure Salary where
  id : String
  userId : String
  month : String
  year : String
  grossSalary : Int
  netSalary : Int
  baseSalary : Int
  overtimePay : Int
  bonus : Int
  besDeduction : Int
  paymentDate : String
  created_at : String
  deriving DecidableEq, Repr

/-- Internal `Overtime` shape produced by `OvertimeService`. -/
structure Overtime where
  id : String
  userId : String
  date : String
  hours : Int
  description : String
  status : Status
  hourlyRate : Int
  totalPayment : Int
  created_at : String
  deriving DecidableEq, Repr

/-- Internal `Leave` shape produced by `LeaveService`. -/
structure Leave where
  id : String
  userId : String
  startDate : String
  endDate : String
  type : String
  status : Status
  reason : String
  leaveType : String
  daysUsed : Int
  created_at : String
  deriving DecidableEq, Repr

/-! ### SalaryService -/

/-- The wire→internal mapping duplicated verbatim in
`SalaryService.getAll`, `getByUserId`, `create` and `update`. -/
def mapSalaryRow (data : SalaryRow) : Salary :=
  { id := data.id
    userId := data.user_id
    month := toString data.month
    year := toString data.year
    grossSalary := data.base_salary + jsOrOptInt data.overtime_pay 0
    netSalary := data.base_salary + jsOrOptInt data.overtime_pay 0
    baseSalary := data.base_salary
    overtimePay := jsOrOptInt data.overtime_pay 0
    bonus := 0
    besDeduction := 0
    paymentDate := data.payment_date
    created_at := data.created_at }

/-- `SalaryService.getAll`: on a backend error the error is logged and
re-thrown; on success every returned row is mapped by `mapSalaryRow`. -/
def salaryServiceGetAll (backend : Except SupabaseError (List SalaryRow)) :
    Except SupabaseError (List Salary) :=
  match backend with
  | .error e => .error e
  | .ok data => .ok (data.map mapSalaryRow)

/-- Backend filter `.eq('user_id', userId)` over the `salaries` table. -/
def selectSalariesByUserId (tbl : List SalaryRow) (userId : String) :
    List SalaryRow :=
  tbl.filter (fun r => r.user_id = userId)

/-- `SalaryService.getByUserId`: the backend either fails or returns the
rows whose `user_id` matches; each row is mapped by `mapSalaryRow`. -/
def salaryServiceGetByUserId (tbl : List SalaryRow) (userId : String)
    (err : Option SupabaseError) : Except SupabaseError (List Salary) :=
  match err with
  | some e => .error e
  | none => .ok ((selectSalariesByUserId tbl userId).map mapSalaryRow)

/-- Payload accepted by `SalaryService.create`
(`Omit<Salary, 'id' | 'createdAt'>`, relevant fields). -/
structure SalaryCreateInput where
  userId : String
  baseSalary : Int
  overtimePay : Int
  paymentDate : String
  month : Int
  year : Int
  deriving DecidableEq, Repr

/-- The row the backend stores for `SalaryService.create`'s insert payload:
the backend assigns `id` and echoes the row back via `select().single()`.
`overtime_pay` is sent as `salaryData.overtimePay || 0`. -/
def salaryInsertRow (input : SalaryCreateInput) (newId now : String) :
    SalaryRow :=
  { id := newId
    user_id := input.userId
    base_salary := input.baseSalary
    overtime_pay := some (jsOrInt input.overtimePay 0)
    payment_date := input.paymentDate
    month := input.month
    year := input.year
    created_at := now
    updated_at := now }

/-- `SalaryService.create`: on a backend error the error is re-thrown; on
success the echoed row is mapped by `mapSalaryRow`. -/
def salaryServiceCreate (backend : Except SupabaseError SalaryRow) :
    Except SupabaseError Salary :=
  match backend with
  | .error e => .error e
  | .ok data => .ok (mapSalaryRow data)

/-- The subset of `Partial<Salary>` fields read by `SalaryService.update`. -/
structure SalaryUpdates where
  baseSalary : Option Int := none
  overtimePay : Option Int := none
  paymentDate : Option String := none
  month : Option String := none
  year : Option String := none
  deriving DecidableEq, Repr

/-- The column write set of a salary `UPDATE` (`updateData`): `updated_at`
is always written, the others only when present. -/
structure SalaryPatch where
  updated_at : String
  base_salary : Option Int := none
  overtime_pay : Option Int := none
  payment_date : Option String := none
  month : Option Int := none
  year : Option Int := none
  deriving DecidableEq, Repr

/-- The `updateData` object built by `SalaryService.update`: `updated_at`
unconditionally, each other column guarded by JavaScript truthiness
(`if (updates.baseSalary) ...`), `month`/`year` run through `parseInt`. -/
def salaryUpdateData (now : String) (updates : SalaryUpdates) : SalaryPatch :=
  { updated_at := now
    base_salary := truthyInt updates.baseSalary
    overtime_pay := truthyInt updates.overtimePay
    payment_date := truthyStr updates.paymentDate
    month := (truthyStr updates.month).map parseIntJs
    year := (truthyStr updates.year).map parseIntJs }

/-- SQL `UPDATE` semantics on one salary row: every column present in the
write set is overwritten, the others keep their stored value. -/
def applySalaryPatch (r : SalaryRow) (p : SalaryPatch) : SalaryRow :=
  { r with
    updated_at := p.updated_at
    base_salary := p.base_salary.getD r.base_salary
    overtime_pay :=
      match p.overtime_pay with
      | some v => some v
      | none => r.overtime_pay
    payment_date := p.payment_date.getD r.payment_date
    month := p.month.getD r.month
    year := p.year.getD r.year }

/-- `update(updateData).eq('id', id)` over the `salaries` table. -/
def supabaseUpdateSalaries (tbl : List SalaryRow) (id : String)
    (p : SalaryPatch) : List SalaryRow :=
  tbl.map (fun r => if r.id = id then applySalaryPatch r p else r)

/-- Table-level effect of `SalaryService.update(id, updates)`. -/
def salaryUpdateTable (tbl : List SalaryRow) (id : String) (now : String)
    (updates : SalaryUpdates) : List SalaryRow :=
  supabaseUpdateSalaries tbl id (salaryUpdateData now updates)

/-- `SalaryService.update`'s returned value: on a backend error the error
is re-thrown; on success the echoed updated row is mapped by
`mapSalaryRow`. -/
def salaryServiceUpdate (backend : Except SupabaseError SalaryRow) :
    Except SupabaseError Salary :=
  match backend with
  | .error e => .error e
  | .ok data => .ok (mapSalaryRow data)

/-- `SalaryService.delete`: the error, if any, is re-thrown. -/
def salaryServiceDelete (backend : Except SupabaseError Unit) :
    Except SupabaseError Unit :=
  match backend with
  | .error e => .error e
  | .ok _ => .ok ()

/-! ### OvertimeService -/

/-- The wire→internal mapping duplicated verbatim in
`OvertimeService.getAll`, `getByUserId`, `create`, `updateStatus` and
`update`: `description` is `data.reason || ''`, `hourlyRate` and
`totalPayment` are hard-coded `0`. -/
def mapOvertimeRow (data : OvertimeRow) : Overtime :=
  { id := data.id
    userId := data.user_id
    date := data.date
    hours := data.hours
    description := jsOrOptStr data.reason ""
    status := data.status
    hourlyRate := 0
    totalPayment := 0
    created_at := data.created_at }

/-- `OvertimeService.getAll`. -/
def overtimeServiceGetAll (backend : Except SupabaseError (List OvertimeRow)) :
    Except SupabaseError (List Overtime) :=
  match backend with
  | .error e => .error e
  | .ok data => .ok (data.map mapOvertimeRow)

/-- Backend filter `.eq('user_id', userId)` over the `overtimes` table. -/
def selectOvertimesByUserId (tbl : List OvertimeRow) (userId : String) :
    List OvertimeRow :=
  tbl.filter (fun r => r.user_id = userId)

/-- `OvertimeService.getByUserId`. -/
def overtimeServiceGetByUserId (tbl : List OvertimeRow) (userId : String)
    (err : Option SupabaseError) : Except SupabaseError (List Overtime) :=
  match err with
  | some e => .error e
  | none => .ok ((selectOvertimesByUserId tbl userId).map mapOvertimeRow)

/-- Payload accepted by `OvertimeService.create` (`status` may be absent:
the insert sends `overtimeData.status || 'pending'`). -/
structure OvertimeCreateInput where
  userId : String
  date : String
  hours : Int
  description : String
  status : Option Status := none
  deriving DecidableEq, Repr

/-- The row the backend stores for `OvertimeService.create`'s insert
payload (`reason: overtimeData.description || ''`). -/
def overtimeInsertRow (input : OvertimeCreateInput) (newId now : String) :
    OvertimeRow :=
  { id := newId
    user_id := input.userId
    date := input.date
    hours := input.hours
    reason := some (jsOrStr input.description "")
    status := input.status.getD .pending
    created_at := now }

/-- `OvertimeService.create`. -/
def overtimeServiceCreate (backend : Except SupabaseError OvertimeRow) :
    Except SupabaseError Overtime :=
  match backend with
  | .error e => .error e
  | .ok data => .ok (mapOvertimeRow data)

/-- The subset of `Partial<Overtime>` fields read by
`OvertimeService.update`. -/
structure OvertimeUpdates where
  date : Option String := none
  hours : Option Int := none
  description : Option String := none
  status : Option Status := none
  deriving DecidableEq, Repr

/-- The column write set of an overtime `UPDATE` (no `updated_at` here). -/
structure OvertimePatch where
  date : Option String := none
  hours : Option Int := none
  reason : Option String := none
  status : Option Status := none
  deriving DecidableEq, Repr

/-- The `updateData` object built by `OvertimeService.update`: each column
guarded by JavaScript truthiness (`if (updates.date) ...`). -/
def overtimeUpdateData (updates : OvertimeUpdates) : OvertimePatch :=
  { date := truthyStr updates.date
    hours := truthyInt updates.hours
    reason := truthyStr updates.description
    status := truthyStatus updates.status }

/-- SQL `UPDATE` semantics on one overtime row. -/
def applyOvertimePatch (r : OvertimeRow) (p : OvertimePatch) : OvertimeRow :=
  { r with
    date := p.date.getD r.date
    hours := p.hours.getD r.hours
    reason :=
      match p.reason with
      | some v => some v
      | none => r.reason
    status := p.status.getD r.status }

/-- `update(updateData).eq('id', id)` over the `overtimes` table. -/
def supabaseUpdateOvertimes (tbl : List OvertimeRow) (id : String)
    (p : OvertimePatch) : List OvertimeRow :=
  tbl.map (fun r => if r.id = id then applyOvertimePatch r p else r)

/-- Table-level effect of `OvertimeService.update(id, updates)`. -/
def overtimeUpdateTable (tbl : List OvertimeRow) (id : String)
    (updates : OvertimeUpdates) : List OvertimeRow :=
  supabaseUpdateOvertimes tbl id (overtimeUpdateData updates)

/-- Table-level effect of `OvertimeService.updateStatus(id, status)`,
whose write set is the literal object `{ status }`. -/
def overtimeUpdateStatusTable (tbl : List OvertimeRow) (id : String)
    (status : Status) : List OvertimeRow :=
  supabaseUpdateOvertimes tbl id { status := some status }

/-- `OvertimeService.update` / `updateStatus` returned value. -/
def overtimeServiceUpdate (backend : Except SupabaseError OvertimeRow) :
    Except SupabaseError Overtime :=
  match backend with
  | .error e => .error e
  | .ok data => .ok (mapOvertimeRow data)

/-- `OvertimeService.delete`. -/
def overtimeServiceDelete (backend : Except SupabaseError Unit) :
    Except SupabaseError Unit :=
  match backend with
  | .error e => .error e
  | .ok _ => .ok ()

/-! ### LeaveService -/

/-- The wire→internal mapping duplicated verbatim in `LeaveService.getAll`,
`getByUserId`, `create`, `updateStatus` and `update`: `reason` is
hard-coded `''`, `leaveType` repeats `data.type`, `daysUsed` is `0`. -/
def mapLeaveRow (data : LeaveRow) : Leave :=
  { id := data.id
    userId := data.user_id
    startDate := data.start_date
    endDate := data.end_date
    type := data.type
    status := data.status
    reason := ""
    leaveType := data.type
    daysUsed := 0
    created_at := data.created_at }

/-- `LeaveService.getAll`. -/
def leaveServiceGetAll (backend : Except SupabaseError (List LeaveRow)) :
    Except SupabaseError (List Leave) :=
  match backend with
  | .error e => .error e
  | .ok data => .ok (data.map mapLeaveRow)

/-- The subset of `Partial<Leave>` fields read by `LeaveService.update`. -/
structure LeaveUpdates where
  startDate : Option String := none
  endDate : Option String := none
  type : Option String := none
  status : Option Status := none
  deriving DecidableEq, Repr

/-- The column write set of a leave `UPDATE`. -/
structure LeavePatch where
  start_date : Option String := none
  end_date : Option String := none
  type : Option String := none
  status : Option Status := none
  deriving DecidableEq, Repr

/-- The `updateData` object built by `LeaveService.update`. -/
def leaveUpdateData (updates : LeaveUpdates) : LeavePatch :=
  { start_date := truthyStr updates.startDate
    end_date := truthyStr updates.endDate
    type := truthyStr updates.type
    status := truthyStatus updates.status }

/-- SQL `UPDATE` semantics on one leave row. -/
def applyLeavePatch (r : LeaveRow) (p : LeavePatch) : LeaveRow :=
  { r with
    start_date := p.start_date.getD r.start_date
    end_date := p.end_date.getD r.end_date
    type := p.type.getD r.type
    status := p.status.getD r.status }

/-- `update(updateData).eq('id', id)` over the `leaves` table. -/
def supabaseUpdateLeaves (tbl : List LeaveRow) (id : String)
    (p : LeavePatch) : List LeaveRow :=
  tbl.map (fun r => if r.id = id then applyLeavePatch r p else r)

/-- Table-level effect of `LeaveService.update(id, updates)`. -/
def leaveUpdateTable (tbl : List LeaveRow) (id : String)
    (updates : LeaveUpdates) : List LeaveRow :=
  supabaseUpdateLeaves tbl id (leaveUpdateData updates)

/-- Table-level effect of `LeaveService.updateStatus(id, status)`,
whose write set is the literal object `{ status }`. -/
def leaveUpdateStatusTable (tbl : List LeaveRow) (id : String)
    (status : Status) : List LeaveRow :=
  supabaseUpdateLeaves tbl id { status := some status }

/-- `LeaveService.update` / `updateStatus` returned value. -/
def leaveServiceUpdate (backend : Except SupabaseError LeaveRow) :
    Except SupabaseError Leave :=
  match backend with
  | .error e => .error e
  | .ok data => .ok (mapLeaveRow data)

/-- `LeaveService.create`. -/
def leaveServiceCreate (backend : Except SupabaseError LeaveRow) :
    Except SupabaseError Leave :=
  match backend with
  | .error e => .error e
  | .ok data => .ok (mapLeaveRow data)

/-- `LeaveService.delete`. -/
def leaveServiceDelete (backend : Except SupabaseError Unit) :
    Except SupabaseError Unit :=
  match backend with
  | .error e => .error e
  | .ok _ => .ok ()

/-- Backend filter `.eq('user_id', userId)` over the `leaves` table. -/
def selectLeavesByUserId (tbl : List LeaveRow) (userId : String) :
    List LeaveRow :=
  tbl.filter (fun r => r.user_id = userId)

/-- `LeaveService.getByUserId`. -/
def leaveServiceGetByUserId (tbl : List LeaveRow) (userId : String)
    (err : Option SupabaseError) : Except SupabaseError (List Leave) :=
  match err with
  | some e => .error e
  | none => .ok ((selectLeavesByUserId tbl userId).map mapLeaveRow)

/-! ### UserService -/

/-- Wire row of the `users` table. -/
structure UserRow where
  id : String
  email : String
  name : String
  employee_type : String
  start_date : String
  created_at : String
  updated_at : String
  deriving DecidableEq, Repr

/-- The wire→internal mapping duplicated verbatim in `UserService.create`,
`getById`, `getAll` and `update`. -/
def mapUserRow (data : UserRow) : User :=
  { id := data.id
    email := data.email
    name := data.name
    employeeType := data.employee_type
    startDate := data.start_date
    createdAt := data.created_at
    updatedAt := data.updated_at }

/-- `UserService.getAll`: on a backend error the error is logged and
re-thrown; on success every returned row is mapped by `mapUserRow`. -/
def userServiceGetAll (backend : Except SupabaseError (List UserRow)) :
    Except SupabaseError (List User) :=
  match backend with
  | .error e => .error e
  | .ok data => .ok (data.map mapUserRow)

/-- `UserService.create`: on a backend error the error is re-thrown; on
success the echoed row is mapped by `mapUserRow`. -/
def userServiceCreate (backend : Except SupabaseError UserRow) :
    Except SupabaseError User :=
  match backend with
  | .error e => .error e
  | .ok data => .ok (mapUserRow data)

/-- `UserService.update`'s returned value. -/
def userServiceUpdate (backend : Except SupabaseError UserRow) :
    Except SupabaseError User :=
  match backend with
  | .error e => .error e
  | .ok data => .ok (mapUserRow data)

/-- `UserService.delete`. -/
def userServiceDelete (backend : Except SupabaseError Unit) :
    Except SupabaseError Unit :=
  match backend with
  | .error e => .error e
  | .ok _ => .ok ()

/-! ### Error taxonomy (`errorHandler.ts`) -/

/-- The seven-value error taxonomy `ErrorType`. -/
inductive ErrorType
  | NETWORK
  | VALIDATION
  | AUTHENTICATION
  | AUTHORIZATION
  | NOT_FOUND
  | SERVER_ERROR
  | UNKNOWN
  deriving DecidableEq, Repr

/-- The static lookup table `errorMap` of `mapSupabaseError`, entry for
entry in source order. -/
def errorMap : List (String × ErrorType) :=
  [("PGRST116", .NOT_FOUND),
   ("PGRST301", .AUTHENTICATION),
   ("23505", .VALIDATION),
   ("23503", .VALIDATION),
   ("42P01", .NOT_FOUND),
   ("42501", .AUTHORIZATION),
   ("network-request-failed", .NETWORK),
   ("invalid-email", .VALIDATION),
   ("weak-password", .VALIDATION),
   ("user-not-found", .AUTHENTICATION),
   ("wrong-password", .AUTHENTICATION),
   ("email-already-in-use", .VALIDATION),
   ("too-many-requests", .AUTHENTICATION),
   ("user-disabled", .AUTHORIZATION),
   ("permission-denied", .AUTHORIZATION),
   ("not-found", .NOT_FOUND),
   ("unavailable", .NETWORK),
   ("deadline-exceeded", .NETWORK),
   ("resource-exhausted", .SERVER_ERROR),
   ("failed-precondition", .VALIDATION),
   ("aborted", .SERVER_ERROR),
   ("out-of-range", .VALIDATION),
   ("unimplemented", .SERVER_ERROR),
   ("internal", .SERVER_ERROR),
   ("data-loss", .SERVER_ERROR)]

/-- The own property names of `Object.prototype`, inherited by every
object literal: reading any of them off `errorMap` yields a truthy
function (or, for `__proto__`, the prototype object itself). -/
def objectPrototypeMembers : List String :=
  ["constructor", "hasOwnProperty", "isPrototypeOf", "propertyIsEnumerable",
   "toLocaleString", "toString", "valueOf", "__defineGetter__",
   "__defineSetter__", "__lookupGetter__", "__lookupSetter__", "__proto__"]

/-- A value produced by the JavaScript property read `errorMap[errorCode]`
(followed by `|| ErrorType.UNKNOWN`): either one of the seven `ErrorType`
values, or a truthy member inherited from `Object.prototype`. -/
inductive JsPropValue
  | errType (t : ErrorType)
  | inherited (name : String)
  deriving DecidableEq, Repr

/-- `mapSupabaseError(errorCode)`: `errorMap[errorCode] || ErrorType.UNKNOWN`.
`errorMap` is a plain object literal, so the bracket read first finds own
properties (the tabulated codes), then walks the prototype chain: a code
naming an `Object.prototype` member yields that truthy inherited member
and `||` does not fire. Only a code matching neither yields `undefined`,
which `|| ErrorType.UNKNOWN` turns into `UNKNOWN`. -/
def mapSupabaseError (errorCode : String) : JsPropValue :=
  match (errorMap.find? (fun p => p.1 = errorCode)) with
  | some p => .errType p.2
  | none =>
      if objectPrototypeMembers.contains errorCode then .inherited errorCode
      else .errType .UNKNOWN

/-! ### Local store adapter (`NanoDatabase`, `browserDatabase.ts`)

`init` creates the five object stores `users`, `salaries`, `overtimes`,
`leaves`, `holidays`, each keyed by `id`. The adapter's generic CRUD is
modelled generically over stored objects: an object is its `id` key plus
the remaining key/value data (IndexedDB stores a structural clone, so a
stored object is read back field-for-field identical). -/

/-- The five object store names created by `NanoDatabase.init`. -/
inductive StoreName
  | users
  | salaries
  | overtimes
  | leaves
  | holidays
  deriving DecidableEq, Repr

/-- A stored object: its `id` key (the store's `keyPath`) and the rest of
its fields as key/value data. -/
structure Obj where
  id : String
  fields : List (String × String)
  deriving DecidableEq, Repr

/-- The whole local database: the contents of the five object stores. -/
structure NanoDB where
  users : List Obj := []
  salaries : List Obj := []
  overtimes : List Obj := []
  leaves : List Obj := []
  holidays : List Obj := []
  deriving DecidableEq, Repr

/-- Records of one object store. -/
def NanoDB.store (db : NanoDB) : StoreName → List Obj
  | .users => db.users
  | .salaries => db.salaries
  | .overtimes => db.overtimes
  | .leaves => db.leaves
  | .holidays => db.holidays

/-- Replace the records of one object store. -/
def NanoDB.setStore (db : NanoDB) (name : StoreName) (recs : List Obj) :
    NanoDB :=
  match name with
  | .users => { db with users := recs }
  | .salaries => { db with salaries := recs }
  | .overtimes => { db with overtimes := recs }
  | .leaves => { db with leaves := recs }
  | .holidays => { db with holidays := recs }

/-- `NanoDatabase.create(storeName, data)`: IndexedDB `store.add(data)`
rejects with a `ConstraintError` when the key is already present,
otherwise stores the object and resolves with the very object passed. -/
def nanoCreate (db : NanoDB) (storeName : StoreName) (data : Obj) :
    Except String (NanoDB × Obj) :=
  let recs := db.store storeName
  if recs.any (fun r => r.id = data.id) then
    .error "ConstraintError"
  else
    .ok (db.setStore storeName (recs ++ [data]), data)

/-- `NanoDatabase.get(storeName, id)`: IndexedDB `store.get(id)` resolves
with the stored object, and `request.result || null` turns a missing key
into `null`. -/
def nanoGet (db : NanoDB) (storeName : StoreName) (id : String) :
    Option Obj :=
  (db.store storeName).find? (fun r => r.id = id)

/-- `NanoDatabase.getAll(storeName)`: IndexedDB `store.getAll()` resolves
with every stored record (`request.result || []`). -/
def nanoGetAll (db : NanoDB) (storeName : StoreName) : List Obj :=
  db.store storeName

/-- `NanoDatabase.delete(storeName, id)`: IndexedDB `store.delete(id)`
removes the record stored under that key. -/
def nanoDelete (db : NanoDB) (storeName : StoreName) (id : String) :
    NanoDB :=
  db.setStore storeName ((db.store storeName).filter (fun r => ¬ r.id = id))

/-- `NanoDatabase.clear(storeName)`. -/
def nanoClear (db : NanoDB) (storeName : StoreName) : NanoDB :=
  db.setStore storeName []

/-! ### State store (`NanoDataContext.tsx`)

The reducer, its action sum type and the provider operations. Each
provider operation awaits one service call and then dispatches; the
service call's outcome is passed in as an `Except` argument. The user
service methods invoked here (`getAllUsers`, `createUser`, `updateUser`,
`deleteUser`) are not present in the sources under `src/`; their outcomes
are likewise oracle arguments, faithful to the spec's per-entity service
contract `getAll/create/update/delete`. -/

/-- Keys of `loadingStates` / `errors`: the four entity collections. -/
inductive Entity
  | users
  | salaries
  | overtimes
  | leaves
  deriving DecidableEq, Repr

/-- `NanoDataState.loadingStates`. -/
structure LoadingStates where
  users : Bool := false
  salaries : Bool := false
  overtimes : Bool := false
  leaves : Bool := false
  deriving DecidableEq, Repr

/-- `NanoDataState.errors` (each field optional). -/
structure Errors where
  users : Option String := none
  salaries : Option String := none
  overtimes : Option String := none
  leaves : Option String := none
  deriving DecidableEq, Repr

/-- The state held by `NanoDataContext`'s reducer. -/
structure NanoDataState where
  users : List User := []
  salaries : List Salary := []
  overtimes : List Overtime := []
  leaves : List Leave := []
  loadingStates : LoadingStates := {}
  errors : Errors := {}
  deriving DecidableEq, Repr

/-- The `initialState` constant. -/
def initialState : NanoDataState :=
  { users := []
    salaries := []
    overtimes := []
    leaves := []
    loadingStates :=
      { users := false, salaries := false, overtimes := false, leaves := false }
    errors := {} }

/-- The `NanoDataAction` sum type, constructor for constructor. -/
inductive NanoDataAction
  | SET_LOADING (entity : Entity) (loading : Bool)
  | SET_ERROR (entity : Entity) (error : Option String)
  | SET_USERS (users : List User)
  | SET_SALARIES (salaries : List Salary)
  | SET_OVERTIMES (overtimes : List Overtime)
  | SET_LEAVES (leaves : List Leave)
  | ADD_USER (user : User)
  | UPDATE_USER (user : User)
  | REMOVE_USER (userId : String)
  | ADD_SALARY (salary : Salary)
  | UPDATE_SALARY (salary : Salary)
  | REMOVE_SALARY (salaryId : String)
  | ADD_OVERTIME (overtime : Overtime)
  | UPDATE_OVERTIME (overtime : Overtime)
  | REMOVE_OVERTIME (overtimeId : String)
  | ADD_LEAVE (leave : Leave)
  | UPDATE_LEAVE (leave : Leave)
  | REMOVE_LEAVE (leaveId : String)
  | CLEAR_ERRORS
  deriving DecidableEq, Repr

/-- The computed-key spread `{...state.loadingStates, [entity]: loading}`. -/
def setLoadingField (ls : LoadingStates) (entity : Entity) (loading : Bool) :
    LoadingStates :=
  match entity with
  | .users => { ls with users := loading }
  | .salaries => { ls with salaries := loading }
  | .overtimes => { ls with overtimes := loading }
  | .leaves => { ls with leaves := loading }

/-- The computed-key spread `{...state.errors, [entity]: error}`. -/
def setErrorField (es : Errors) (entity : Entity) (error : Option String) :
    Errors :=
  match entity with
  | .users => { es with users := error }
  | .salaries => { es with salaries := error }
  | .overtimes => { es with overtimes := error }
  | .leaves => { es with leaves := error }

/-- `nanoDataReducer`, case for case. -/
def nanoDataReducer (state : NanoDataState) (action : NanoDataAction) :
    NanoDataState :=
  match action with
  | .SET_LOADING entity loading =>
      { state with
        loadingStates := setLoadingField state.loadingStates entity loading }
  | .SET_ERROR entity error =>
      { state with errors := setErrorField state.errors entity error }
  | .SET_USERS users => { state with users := users }
  | .SET_SALARIES salaries => { state with salaries := salaries }
  | .SET_OVERTIMES overtimes => { state with overtimes := overtimes }
  | .SET_LEAVES leaves => { state with leaves := leaves }
  | .ADD_USER user => { state with users := state.users ++ [user] }
  | .UPDATE_USER user =>
      { state with
        users := state.users.map (fun u => if u.id = user.id then user else u) }
  | .REMOVE_USER userId =>
      { state with users := state.users.filter (fun u => ¬ u.id = userId) }
  | .ADD_SALARY salary => { state with salaries := state.salaries ++ [salary] }
  | .UPDATE_SALARY salary =>
      { state with
        salaries :=
          state.salaries.map (fun s => if s.id = salary.id then salary else s) }
  | .REMOVE_SALARY salaryId =>
      { state with
        salaries := state.salaries.filter (fun s => ¬ s.id = salaryId) }
  | .ADD_OVERTIME overtime =>
      { state with overtimes := state.overtimes ++ [overtime] }
  | .UPDATE_OVERTIME overtime =>
      { state with
        overtimes :=
          state.overtimes.map (fun o => if o.id = overtime.id then overtime else o) }
  | .REMOVE_OVERTIME overtimeId =>
      { state with
        overtimes := state.overtimes.filter (fun o => ¬ o.id = overtimeId) }
  | .ADD_LEAVE leave => { state with leaves := state.leaves ++ [leave] }
  | .UPDATE_LEAVE leave =>
      { state with
        leaves := state.leaves.map (fun l => if l.id = leave.id then leave else l) }
  | .REMOVE_LEAVE leaveId =>
      { state with leaves := state.leaves.filter (fun l => ¬ l.id = leaveId) }
  | .CLEAR_ERRORS => { state with errors := {} }

namespace NanoData

/-- `refreshData`: four sequential fetches users → salaries → overtimes →
leaves, each preceded by `SET_LOADING entity true` and followed on success
by a wholesale `SET_<ENTITY>` replacement plus `SET_ERROR entity undefined`.
The whole body sits in one `try`; the single `catch` dispatches
`SET_ERROR users 'Veri yüklenemedi'` whichever fetch threw. -/
def refreshData (state : NanoDataState)
    (usersRes : Except SupabaseError (List User))
    (salariesRes : Except SupabaseError (List Salary))
    (overtimesRes : Except SupabaseError (List Overtime))
    (leavesRes : Except SupabaseError (List Leave)) : NanoDataState :=
  let s1 := nanoDataReducer state (.SET_LOADING .users true)
  match usersRes with
  | .error _ => nanoDataReducer s1 (.SET_ERROR .users (some "Veri yüklenemedi"))
  | .ok users =>
    let s2 := nanoDataReducer s1 (.SET_USERS users)
    let s3 := nanoDataReducer s2 (.SET_ERROR .users none)
    let s4 := nanoDataReducer s3 (.SET_LOADING .salaries true)
    match salariesRes with
    | .error _ => nanoDataReducer s4 (.SET_ERROR .users (some "Veri yüklenemedi"))
    | .ok salaries =>
      let s5 := nanoDataReducer s4 (.SET_SALARIES salaries)
      let s6 := nanoDataReducer s5 (.SET_ERROR .salaries none)
      let s7 := nanoDataReducer s6 (.SET_LOADING .overtimes true)
      match overtimesRes with
      | .error _ => nanoDataReducer s7 (.SET_ERROR .users (some "Veri yüklenemedi"))
      | .ok overtimes =>
        let s8 := nanoDataReducer s7 (.SET_OVERTIMES overtimes)
        let s9 := nanoDataReducer s8 (.SET_ERROR .overtimes none)
        let s10 := nanoDataReducer s9 (.SET_LOADING .leaves true)
        match leavesRes with
        | .error _ =>
            nanoDataReducer s10 (.SET_ERROR .users (some "Veri yüklenemedi"))
        | .ok leaves =>
          let s11 := nanoDataReducer s10 (.SET_LEAVES leaves)
          nanoDataReducer s11 (.SET_ERROR .leaves none)

/-- `createUser`: on success dispatch `ADD_USER`; on failure dispatch
`SET_ERROR users 'Kullanıcı oluşturulamadı'` and re-throw. -/
def createUser (state : NanoDataState) (svc : Except SupabaseError User) :
    NanoDataState × Except SupabaseError User :=
  match svc with
  | .ok user => (nanoDataReducer state (.ADD_USER user), .ok user)
  | .error e =>
      (nanoDataReducer state (.SET_ERROR .users (some "Kullanıcı oluşturulamadı")),
       .error e)

/-- `updateUser`: on a (truthy) result dispatch `UPDATE_USER`; on failure
dispatch `SET_ERROR users 'Kullanıcı güncellenemedi'` and re-throw. -/
def updateUser (state : NanoDataState) (svc : Except SupabaseError User) :
    NanoDataState × Except SupabaseError User :=
  match svc with
  | .ok user => (nanoDataReducer state (.UPDATE_USER user), .ok user)
  | .error e =>
      (nanoDataReducer state (.SET_ERROR .users (some "Kullanıcı güncellenemedi")),
       .error e)

/-- `deleteUser`: on a `true` result dispatch `REMOVE_USER`; on failure
dispatch `SET_ERROR users 'Kullanıcı silinemedi'` and re-throw. -/
def deleteUser (state : NanoDataState) (id : String)
    (svc : Except SupabaseError Bool) :
    NanoDataState × Except SupabaseError Bool :=
  match svc with
  | .ok success =>
      (if success then nanoDataReducer state (.REMOVE_USER id) else state,
       .ok success)
  | .error e =>
      (nanoDataReducer state (.SET_ERROR .users (some "Kullanıcı silinemedi")),
       .error e)

/-- `createSalary`: on success dispatch `ADD_SALARY`; on failure dispatch
`SET_ERROR salaries 'Maaş kaydı oluşturulamadı'` and re-throw. -/
def createSalary (state : NanoDataState) (svc : Except SupabaseError Salary) :
    NanoDataState × Except SupabaseError Salary :=
  match svc with
  | .ok salary => (nanoDataReducer state (.ADD_SALARY salary), .ok salary)
  | .error e =>
      (nanoDataReducer state
        (.SET_ERROR .salaries (some "Maaş kaydı oluşturulamadı")), .error e)

/-- `updateSalary`: the service resolves with the updated (truthy) salary,
so success always dispatches `UPDATE_SALARY`; failure dispatches
`SET_ERROR salaries 'Maaş kaydı güncellenemedi'` and re-throws. -/
def updateSalary (state : NanoDataState) (svc : Except SupabaseError Salary) :
    NanoDataState × Except SupabaseError Salary :=
  match svc with
  | .ok salary => (nanoDataReducer state (.UPDATE_SALARY salary), .ok salary)
  | .error e =>
      (nanoDataReducer state
        (.SET_ERROR .salaries (some "Maaş kaydı güncellenemedi")), .error e)

/-- `deleteSalary`: on success dispatch `REMOVE_SALARY`; on failure
dispatch `SET_ERROR salaries 'Maaş kaydı silinemedi'` and re-throw. -/
def deleteSalary (state : NanoDataState) (id : String)
    (svc : Except SupabaseError Unit) :
    NanoDataState × Except SupabaseError Bool :=
  match svc with
  | .ok _ => (nanoDataReducer state (.REMOVE_SALARY id), .ok true)
  | .error e =>
      (nanoDataReducer state
        (.SET_ERROR .salaries (some "Maaş kaydı silinemedi")), .error e)

/-- `createOvertime`. -/
def createOvertime (state : NanoDataState)
    (svc : Except SupabaseError Overtime) :
    NanoDataState × Except SupabaseError Overtime :=
  match svc with
  | .ok overtime => (nanoDataReducer state (.ADD_OVERTIME overtime), .ok overtime)
  | .error e =>
      (nanoDataReducer state
        (.SET_ERROR .overtimes (some "Mesai kaydı oluşturulamadı")), .error e)

/-- `updateOvertime` (also backing `updateOvertimeStatus`). -/
def updateOvertime (state : NanoDataState)
    (svc : Except SupabaseError Overtime) :
    NanoDataState × Except SupabaseError Overtime :=
  match svc with
  | .ok overtime =>
      (nanoDataReducer state (.UPDATE_OVERTIME overtime), .ok overtime)
  | .error e =>
      (nanoDataReducer state
        (.SET_ERROR .overtimes (some "Mesai kaydı güncellenemedi")), .error e)

/-- `deleteOvertime`. -/
def deleteOvertime (state : NanoDataState) (id : String)
    (svc : Except SupabaseError Unit) :
    NanoDataState × Except SupabaseError Bool :=
  match svc with
  | .ok _ => (nanoDataReducer state (.REMOVE_OVERTIME id), .ok true)
  | .error e =>
      (nanoDataReducer state
        (.SET_ERROR .overtimes (some "Mesai kaydı silinemedi")), .error e)

/-- `createLeave`. -/
def createLeave (state : NanoDataState) (svc : Except SupabaseError Leave) :
    NanoDataState × Except SupabaseError Leave :=
  match svc with
  | .ok leave => (nanoDataReducer state (.ADD_LEAVE leave), .ok leave)
  | .error e =>
      (nanoDataReducer state
        (.SET_ERROR .leaves (some "İzin kaydı oluşturulamadı")), .error e)

/-- `updateLeave` (also backing `updateLeaveStatus`). -/
def updateLeave (state : NanoDataState) (svc : Except SupabaseError Leave) :
    NanoDataState × Except SupabaseError Leave :=
  match svc with
  | .ok leave => (nanoDataReducer state (.UPDATE_LEAVE leave), .ok leave)
  | .error e =>
      (nanoDataReducer state
        (.SET_ERROR .leaves (some "İzin kaydı güncellenemedi")), .error e)

/-- `deleteLeave`. -/
def deleteLeave (state : NanoDataState) (id : String)
    (svc : Except SupabaseError Unit) :
    NanoDataState × Except SupabaseError Bool :=
  match svc with
  | .ok _ => (nanoDataReducer state (.REMOVE_LEAVE id), .ok true)
  | .error e =>
      (nanoDataReducer state
        (.SET_ERROR .leaves (some "İzin kaydı silinemedi")), .error e)

/-- `clearErrors`. -/
def clearErrors (state : NanoDataState) : NanoDataState :=
  nanoDataReducer state .CLEAR_ERRORS

end NanoData

/-! ## Theorems -/

/-- A demo salary wire row, used to instantiate universally quantified
statements at a concrete input. -/
def demoSalaryRow : SalaryRow :=
  { id := "salary-1"
    user_id := "demo-user-1"
    base_salary := 15000
    overtime_pay := some 2000
    payment_date := "2024-01-31"
    month := 1
    year := 2024
    created_at := "2024-01-31T00:00:00Z"
    updated_at := "2024-01-31T00:00:00Z" }

/-- C1: every `Salary` produced by `SalaryService.getAll`, `getByUserId`,
`create` or `update` satisfies `grossSalary = baseSalary + overtimePay +
bonus` (the tracked `bonus` is hard-coded `0`); in particular creating a
salary with `baseSalary = 15000` and `overtimePay = 2000` and reading the
result back yields `grossSalary = 17000`. -/
theorem salary_gross_invariant :
    (∀ row : SalaryRow, (mapSalaryRow row).grossSalary =
        (mapSalaryRow row).baseSalary + (mapSalaryRow row).overtimePay +
        (mapSalaryRow row).bonus) ∧
    (∀ backend rows, salaryServiceGetAll backend = .ok rows →
        ∀ s ∈ rows, s.grossSalary = s.baseSalary + s.overtimePay + s.bonus) ∧
    (∀ tbl uid rows, salaryServiceGetByUserId tbl uid none = .ok rows →
        ∀ s ∈ rows, s.grossSalary = s.baseSalary + s.overtimePay + s.bonus) ∧
    (∀ backend s, salaryServiceCreate backend = .ok s →
        s.grossSalary = s.baseSalary + s.overtimePay + s.bonus) ∧
    (∀ backend s, salaryServiceUpdate backend = .ok s →
        s.grossSalary = s.baseSalary + s.overtimePay + s.bonus) ∧
    (∀ newId now : String, ∃ s : Salary,
        salaryServiceCreate (.ok (salaryInsertRow
          { userId := "demo-user-1", baseSalary := 15000, overtimePay := 2000,
            paymentDate := "2024-01-31", month := 1, year := 2024 } newId now)) =
          .ok s ∧ s.grossSalary = 17000) := by
  have hmap : ∀ row : SalaryRow, (mapSalaryRow row).grossSalary =
      (mapSalaryRow row).baseSalary + (mapSalaryRow row).overtimePay +
      (mapSalaryRow row).bonus := by
    intro row
    simp [mapSalaryRow]
  refine ⟨hmap, ?_, ?_, ?_, ?_, ?_⟩
  · intro backend rows h s hs
    cases backend with
    | error e => simp [salaryServiceGetAll] at h
    | ok data =>
      simp only [salaryServiceGetAll, Except.ok.injEq] at h
      subst h
      obtain ⟨row, _, rfl⟩ := List.mem_map.mp hs
      exact hmap row
  · intro tbl uid rows h s hs
    simp only [salaryServiceGetByUserId, Except.ok.injEq] at h
    subst h
    obtain ⟨row, _, rfl⟩ := List.mem_map.mp hs
    exact hmap row
  · intro backend s h
    cases backend with
    | error e => simp [salaryServiceCreate] at h
    | ok data =>
      simp only [salaryServiceCreate, Except.ok.injEq] at h
      subst h
      exact hmap data
  · intro backend s h
    cases backend with
    | error e => simp [salaryServiceUpdate] at h
    | ok data =>
      simp only [salaryServiceUpdate, Except.ok.injEq] at h
      subst h
      exact hmap data
  · intro newId now
    refine ⟨_, rfl, ?_⟩
    simp [mapSalaryRow, salaryInsertRow, jsOrOptInt, jsOrInt]

/-- Witness for C1: the invariant evaluated at the demo wire row through
`SalaryService.getAll`. -/
theorem salary_gross_invariant_witness :
    (mapSalaryRow demoSalaryRow).grossSalary =
      (mapSalaryRow demoSalaryRow).baseSalary +
      (mapSalaryRow demoSalaryRow).overtimePay +
      (mapSalaryRow demoSalaryRow).bonus :=
  salary_gross_invariant.2.1 (.ok [demoSalaryRow])
    ([demoSalaryRow].map mapSalaryRow) rfl (mapSalaryRow demoSalaryRow)
    (by simp)

/-- C3: `updateStatus(id, status)` — and equally `update(id, {status})` —
on an Overtime or Leave rewrites the stored record with that `id` to the
same record with only `status` replaced, and leaves every other record
untouched. -/
theorem update_status_frame :
    (∀ (tbl : List OvertimeRow) (id : String) (status : Status),
        overtimeUpdateStatusTable tbl id status =
          tbl.map (fun r => if r.id = id then { r with status := status } else r)) ∧
    (∀ (tbl : List LeaveRow) (id : String) (status : Status),
        leaveUpdateStatusTable tbl id status =
          tbl.map (fun r => if r.id = id then { r with status := status } else r)) ∧
    (∀ (tbl : List OvertimeRow) (id : String) (status : Status),
        overtimeUpdateTable tbl id { status := some status } =
          overtimeUpdateStatusTable tbl id status) ∧
    (∀ (tbl : List LeaveRow) (id : String) (status : Status),
        leaveUpdateTable tbl id { status := some status } =
          leaveUpdateStatusTable tbl id status) :=
  ⟨fun _ _ _ => rfl, fun _ _ _ => rfl, fun _ _ _ => rfl, fun _ _ _ => rfl⟩

/-- Applying an empty overtime write set changes nothing. -/
theorem applyOvertimePatch_empty (r : OvertimeRow) :
    applyOvertimePatch r {} = r := rfl

/-- C9: a falsy value supplied to a service `update` is silently dropped
from the write set by the truthiness guards: `baseSalary: 0` and
`overtimePay: 0` leave those columns at their stored values (only the
unconditional `updated_at` column is written), and `hours: 0` or
`description: ''` on an overtime leave the whole table unchanged. -/
theorem falsy_update_fields_dropped :
    (∀ (tbl : List SalaryRow) (id now : String),
        salaryUpdateTable tbl id now { baseSalary := some 0 } =
          tbl.map (fun r => if r.id = id then { r with updated_at := now } else r)) ∧
    (∀ (tbl : List SalaryRow) (id now : String),
        salaryUpdateTable tbl id now { overtimePay := some 0 } =
          tbl.map (fun r => if r.id = id then { r with updated_at := now } else r)) ∧
    (∀ (tbl : List OvertimeRow) (id : String),
        overtimeUpdateTable tbl id { hours := some 0 } = tbl) ∧
    (∀ (tbl : List OvertimeRow) (id : String),
        overtimeUpdateTable tbl id { description := some "" } = tbl) := by
  refine ⟨fun tbl id now => rfl, fun tbl id now => rfl, ?_, ?_⟩
  · intro tbl id
    show supabaseUpdateOvertimes tbl id (overtimeUpdateData { hours := some 0 }) = tbl
    have h : overtimeUpdateData { hours := some 0 } = ({} : OvertimePatch) := rfl
    rw [h]
    simp [supabaseUpdateOvertimes, applyOvertimePatch_empty]
  · intro tbl id
    show supabaseUpdateOvertimes tbl id
        (overtimeUpdateData { description := some "" }) = tbl
    have h : overtimeUpdateData { description := some "" } = ({} : OvertimePatch) := rfl
    rw [h]
    simp [supabaseUpdateOvertimes, applyOvertimePatch_empty]

/-- C8: every entity service operation of the four services — Salary,
Overtime and Leave getAll/getByUserId/create/update/delete, and User
getAll/create/update/delete (`UserService` has no `getByUserId`) —
re-throws the backend's error verbatim: the `Except` value handed to the
caller is the very error the backend produced, with no retry, wrapping or
reclassification. -/
theorem service_error_passthrough :
    (∀ e, salaryServiceGetAll (.error e) = .error e) ∧
    (∀ tbl uid e, salaryServiceGetByUserId tbl uid (some e) = .error e) ∧
    (∀ e, salaryServiceCreate (.error e) = .error e) ∧
    (∀ e, salaryServiceUpdate (.error e) = .error e) ∧
    (∀ e, salaryServiceDelete (.error e) = .error e) ∧
    (∀ e, overtimeServiceGetAll (.error e) = .error e) ∧
    (∀ tbl uid e, overtimeServiceGetByUserId tbl uid (some e) = .error e) ∧
    (∀ e, overtimeServiceCreate (.error e) = .error e) ∧
    (∀ e, overtimeServiceUpdate (.error e) = .error e) ∧
    (∀ e, overtimeServiceDelete (.error e) = .error e) ∧
    (∀ e, leaveServiceGetAll (.error e) = .error e) ∧
    (∀ tbl uid e, leaveServiceGetByUserId tbl uid (some e) = .error e) ∧
    (∀ e, leaveServiceCreate (.error e) = .error e) ∧
    (∀ e, leaveServiceUpdate (.error e) = .error e) ∧
    (∀ e, leaveServiceDelete (.error e) = .error e) ∧
    (∀ e, userServiceGetAll (.error e) = .error e) ∧
    (∀ e, userServiceCreate (.error e) = .error e) ∧
    (∀ e, userServiceUpdate (.error e) = .error e) ∧
    (∀ e, userServiceDelete (.error e) = .error e) :=
  ⟨fun _ => rfl, fun _ _ _ => rfl, fun _ => rfl, fun _ => rfl, fun _ => rfl,
   fun _ => rfl, fun _ _ _ => rfl, fun _ => rfl, fun _ => rfl, fun _ => rfl,
   fun _ => rfl, fun _ _ _ => rfl, fun _ => rfl, fun _ => rfl, fun _ => rfl,
   fun _ => rfl, fun _ => rfl, fun _ => rfl, fun _ => rfl⟩

/-- Reading back the store a `setStore` just wrote yields what was written. -/
theorem NanoDB.store_setStore (db : NanoDB) (name : StoreName)
    (recs : List Obj) : (db.setStore name recs).store name = recs := by
  cases name <;> rfl

/-- `find?` skips a prefix on which it found nothing. -/
theorem find_append_of_none {p : Obj → Bool} {l₁ l₂ : List Obj}
    (h : l₁.find? p = none) : (l₁ ++ l₂).find? p = l₂.find? p := by
  induction l₁ with
  | nil => rfl
  | cons a l ih =>
    rw [List.find?_cons] at h
    rw [List.cons_append, List.find?_cons]
    cases hpa : p a with
    | true => rw [hpa] at h; simp at h
    | false => rw [hpa] at h; exact ih h

/-- C5: after `NanoDatabase.create(store, o)` succeeds, the resolved value
is the very object passed in, and `get(store, o.id)` on the resulting
database returns exactly that object. -/
theorem nano_create_get_roundtrip (db : NanoDB) (store : StoreName) (o : Obj)
    (db' : NanoDB) (ret : Obj) (h : nanoCreate db store o = .ok (db', ret)) :
    ret = o ∧ nanoGet db' store o.id = some o := by
  unfold nanoCreate at h
  by_cases hdup : (db.store store).any (fun r => r.id = o.id)
  · rw [if_pos hdup] at h
    exact absurd h (by simp)
  · rw [if_neg hdup] at h
    simp only [Except.ok.injEq, Prod.mk.injEq] at h
    obtain ⟨hdb, hret⟩ := h
    subst hdb
    refine ⟨hret.symm, ?_⟩
    unfold nanoGet
    rw [NanoDB.store_setStore]
    have hnone : (db.store store).find? (fun r => r.id = o.id) = none := by
      rw [List.find?_eq_none]
      intro x hx
      simp only [Bool.not_eq_true]
      by_contra hxid
      exact hdup (List.any_eq_true.mpr ⟨x, hx, by simpa using hxid⟩)
    rw [find_append_of_none hnone]
    simp

/-- A demo local-store object. -/
def demoObj : Obj :=
  { id := "demo-user-1", fields := [("email", "ahmet@company.com")] }

/-- Witness for C5: creating `demoObj` in the empty database's `users`
store and reading it back. -/
theorem nano_create_get_roundtrip_witness :
    demoObj = demoObj ∧
      nanoGet { users := [demoObj] } .users demoObj.id = some demoObj :=
  nano_create_get_roundtrip {} .users demoObj { users := [demoObj] } demoObj rfl

/-- C6: after `NanoDatabase.delete(store, id)`, `getAll(store)` contains no
record keyed `id`, and every record with a different key is still there. -/
theorem nano_delete_getAll_frame (db : NanoDB) (store : StoreName)
    (id : String) :
    (∀ o ∈ nanoGetAll (nanoDelete db store id) store, o.id ≠ id) ∧
    (∀ o ∈ nanoGetAll db store, o.id ≠ id →
        o ∈ nanoGetAll (nanoDelete db store id) store) := by
  unfold nanoGetAll nanoDelete
  rw [NanoDB.store_setStore]
  constructor
  · intro o ho
    have := (List.mem_filter.mp ho).2
    simpa using this
  · intro o ho hne
    exact List.mem_filter.mpr ⟨ho, by simpa using hne⟩

/-- A second demo local-store object. -/
def demoObj2 : Obj :=
  { id := "demo-user-2", fields := [("email", "admin@company.com")] }

/-- Witness for C6: deleting `demo-user-1` from a two-record `users` store
keeps `demo-user-2` and removes `demo-user-1`. -/
theorem nano_delete_getAll_frame_witness :
    (∀ o ∈ nanoGetAll
        (nanoDelete { users := [demoObj, demoObj2] } .users "demo-user-1")
        .users, o.id ≠ "demo-user-1") ∧
      demoObj2 ∈ nanoGetAll
        (nanoDelete { users := [demoObj, demoObj2] } .users "demo-user-1")
        .users :=
  ⟨(nano_delete_getAll_frame { users := [demoObj, demoObj2] } .users
      "demo-user-1").1,
   (nano_delete_getAll_frame { users := [demoObj, demoObj2] } .users
      "demo-user-1").2 demoObj2 (by simp [nanoGetAll, NanoDB.store])
      (by decide)⟩

/-- C7, counterexample: `'toString'` is not a key of `errorMap`, yet
`mapSupabaseError('toString')` returns the truthy `Object.prototype`
member inherited by the object literal — not `UNKNOWN`. -/
theorem mapSupabaseError_proto_cex :
    (errorMap.map Prod.fst).contains "toString" = false ∧
      mapSupabaseError "toString" ≠ .errType .UNKNOWN ∧
      mapSupabaseError "toString" = .inherited "toString" := by
  decide

/-- C7, amended: for every code in the static table, `mapSupabaseError`
returns the tabulated type (in particular `'42501' ↦ AUTHORIZATION` and
`'PGRST116' ↦ NOT_FOUND`); for every code that is neither in the table nor
the name of an inherited `Object.prototype` member it returns `UNKNOWN`;
but a code naming an `Object.prototype` member (e.g. `'toString'`,
`'__proto__'`) yields that truthy inherited member instead of `UNKNOWN`,
a value outside the seven-value taxonomy. -/
theorem mapSupabaseError_table_amended :
    (∀ p ∈ errorMap, mapSupabaseError p.1 = .errType p.2) ∧
    (∀ code, (∀ p ∈ errorMap, p.1 ≠ code) →
        ¬ code ∈ objectPrototypeMembers →
        mapSupabaseError code = .errType .UNKNOWN) ∧
    (∀ code ∈ objectPrototypeMembers,
        mapSupabaseError code = .inherited code) ∧
    mapSupabaseError "42501" = .errType .AUTHORIZATION ∧
    mapSupabaseError "PGRST116" = .errType .NOT_FOUND := by
  refine ⟨by decide, ?_, by decide, by decide, by decide⟩
  intro code h hproto
  unfold mapSupabaseError
  cases hfind : errorMap.find? (fun p => p.1 = code) with
  | none =>
    rw [if_neg (by simpa using hproto)]
  | some p =>
    have hmem := List.mem_of_find?_eq_some hfind
    have hp := List.find?_some hfind
    exact absurd (by simpa using hp) (h p hmem)

/-- Witness for C7's amended theorem: a code present in the table, and a
code absent both from the table and from `Object.prototype`. -/
theorem mapSupabaseError_table_amended_witness :
    mapSupabaseError ("42501", ErrorType.AUTHORIZATION).1 =
        .errType ("42501", ErrorType.AUTHORIZATION).2 ∧
      mapSupabaseError "no-such-code" = .errType .UNKNOWN :=
  ⟨mapSupabaseError_table_amended.1 ("42501", .AUTHORIZATION) (by decide),
   mapSupabaseError_table_amended.2.1 "no-such-code" (by decide) (by decide)⟩

/-- C2, counterexample: with the store in its initial state, a failing
salaries fetch inside `refreshData` does NOT leave the state "identical to
the prior state except that the failing entity's error field is set": no
Turkish message whatsoever makes that equation true (the catch block
writes the `users` error field instead, and the loading flags and the
already-fetched `users` collection have changed too). -/
theorem refreshData_error_frame_cex :
    ¬ ∃ msg : String,
      NanoData.refreshData initialState (.ok [])
          (.error { code := "500", message := "db down" }) (.ok []) (.ok []) =
        { initialState with
          errors := { initialState.errors with salaries := some msg } } := by
  rintro ⟨msg, h⟩
  have h2 := congrArg (fun st => st.loadingStates.users) h
  simp [NanoData.refreshData, initialState, nanoDataReducer, setLoadingField,
    setErrorField] at h2

/-- C2, amended: every create/update/delete operation of the store reacts
to a failing service call by leaving the state unchanged except for the
failing entity's error field, which is set to its Turkish message. For
`refreshData`, however, any fetch failure sets the `users` error field to
`'Veri yüklenemedi'` (never the failing entity's own field, unless that
entity is `users`), leaves every loading flag already switched on at
`true`, keeps the collections fetched before the failure replaced, and
clears the error fields of the entities fetched successfully before the
failure. -/
theorem store_error_frame_amended :
    (∀ s e, (NanoData.createUser s (.error e)).1 =
      { s with errors := { s.errors with users := some "Kullanıcı oluşturulamadı" } }) ∧
    (∀ s e, (NanoData.updateUser s (.error e)).1 =
      { s with errors := { s.errors with users := some "Kullanıcı güncellenemedi" } }) ∧
    (∀ s id e, (NanoData.deleteUser s id (.error e)).1 =
      { s with errors := { s.errors with users := some "Kullanıcı silinemedi" } }) ∧
    (∀ s e, (NanoData.createSalary s (.error e)).1 =
      { s with errors := { s.errors with salaries := some "Maaş kaydı oluşturulamadı" } }) ∧
    (∀ s e, (NanoData.updateSalary s (.error e)).1 =
      { s with errors := { s.errors with salaries := some "Maaş kaydı güncellenemedi" } }) ∧
    (∀ s id e, (NanoData.deleteSalary s id (.error e)).1 =
      { s with errors := { s.errors with salaries := some "Maaş kaydı silinemedi" } }) ∧
    (∀ s e, (NanoData.createOvertime s (.error e)).1 =
      { s with errors := { s.errors with overtimes := some "Mesai kaydı oluşturulamadı" } }) ∧
    (∀ s e, (NanoData.updateOvertime s (.error e)).1 =
      { s with errors := { s.errors with overtimes := some "Mesai kaydı güncellenemedi" } }) ∧
    (∀ s id e, (NanoData.deleteOvertime s id (.error e)).1 =
      { s with errors := { s.errors with overtimes := some "Mesai kaydı silinemedi" } }) ∧
    (∀ s e, (NanoData.createLeave s (.error e)).1 =
      { s with errors := { s.errors with leaves := some "İzin kaydı oluşturulamadı" } }) ∧
    (∀ s e, (NanoData.updateLeave s (.error e)).1 =
      { s with errors := { s.errors with leaves := some "İzin kaydı güncellenemedi" } }) ∧
    (∀ s id e, (NanoData.deleteLeave s id (.error e)).1 =
      { s with errors := { s.errors with leaves := some "İzin kaydı silinemedi" } }) ∧
    (∀ s e r2 r3 r4, NanoData.refreshData s (.error e) r2 r3 r4 =
      { s with
        loadingStates := { s.loadingStates with users := true }
        errors := { s.errors with users := some "Veri yüklenemedi" } }) ∧
    (∀ s us e r3 r4, NanoData.refreshData s (.ok us) (.error e) r3 r4 =
      { s with
        users := us
        loadingStates := { s.loadingStates with users := true, salaries := true }
        errors := { s.errors with users := some "Veri yüklenemedi" } }) ∧
    (∀ s us sa e r4, NanoData.refreshData s (.ok us) (.ok sa) (.error e) r4 =
      { s with
        users := us
        salaries := sa
        loadingStates :=
          { s.loadingStates with users := true, salaries := true, overtimes := true }
        errors :=
          { s.errors with users := some "Veri yüklenemedi", salaries := none } }) ∧
    (∀ s us sa ov e, NanoData.refreshData s (.ok us) (.ok sa) (.ok ov) (.error e) =
      { s with
        users := us
        salaries := sa
        overtimes := ov
        loadingStates :=
          { users := true, salaries := true, overtimes := true, leaves := true }
        errors :=
          { s.errors with
            users := some "Veri yüklenemedi", salaries := none, overtimes := none } }) :=
  ⟨fun _ _ => rfl, fun _ _ => rfl, fun _ _ _ => rfl, fun _ _ => rfl,
   fun _ _ => rfl, fun _ _ _ => rfl, fun _ _ => rfl, fun _ _ => rfl,
   fun _ _ _ => rfl, fun _ _ => rfl, fun _ _ => rfl, fun _ _ _ => rfl,
   fun _ _ _ _ _ => rfl, fun _ _ _ _ _ => rfl, fun _ _ _ _ _ => rfl,
   fun _ _ _ _ _ => rfl⟩

/-- C4: `refreshData` fetches users, salaries, overtimes, leaves in that
order and on success replaces each collection wholesale with exactly the
list the service returned; a failure at any position leaves every
not-yet-fetched collection (and on a users failure, all of them) exactly
as before, so the fetches are sequential in that order. -/
theorem refreshData_wholesale_order :
    (∀ s us sa ov le,
      (NanoData.refreshData s (.ok us) (.ok sa) (.ok ov) (.ok le)).users = us ∧
      (NanoData.refreshData s (.ok us) (.ok sa) (.ok ov) (.ok le)).salaries = sa ∧
      (NanoData.refreshData s (.ok us) (.ok sa) (.ok ov) (.ok le)).overtimes = ov ∧
      (NanoData.refreshData s (.ok us) (.ok sa) (.ok ov) (.ok le)).leaves = le) ∧
    (∀ s e r2 r3 r4,
      (NanoData.refreshData s (.error e) r2 r3 r4).users = s.users ∧
      (NanoData.refreshData s (.error e) r2 r3 r4).salaries = s.salaries ∧
      (NanoData.refreshData s (.error e) r2 r3 r4).overtimes = s.overtimes ∧
      (NanoData.refreshData s (.error e) r2 r3 r4).leaves = s.leaves) ∧
    (∀ s us e r3 r4,
      (NanoData.refreshData s (.ok us) (.error e) r3 r4).users = us ∧
      (NanoData.refreshData s (.ok us) (.error e) r3 r4).salaries = s.salaries ∧
      (NanoData.refreshData s (.ok us) (.error e) r3 r4).overtimes = s.overtimes ∧
      (NanoData.refreshData s (.ok us) (.error e) r3 r4).leaves = s.leaves) ∧
    (∀ s us sa e r4,
      (NanoData.refreshData s (.ok us) (.ok sa) (.error e) r4).users = us ∧
      (NanoData.refreshData s (.ok us) (.ok sa) (.error e) r4).salaries = sa ∧
      (NanoData.refreshData s (.ok us) (.ok sa) (.error e) r4).overtimes = s.overtimes ∧
      (NanoData.refreshData s (.ok us) (.ok sa) (.error e) r4).leaves = s.leaves) ∧
    (∀ s us sa ov e,
      (NanoData.refreshData s (.ok us) (.ok sa) (.ok ov) (.error e)).users = us ∧
      (NanoData.refreshData s (.ok us) (.ok sa) (.ok ov) (.error e)).salaries = sa ∧
      (NanoData.refreshData s (.ok us) (.ok sa) (.ok ov) (.error e)).overtimes = ov ∧
      (NanoData.refreshData s (.ok us) (.ok sa) (.ok ov) (.error e)).leaves = s.leaves) :=
  ⟨fun _ _ _ _ _ => ⟨rfl, rfl, rfl, rfl⟩,
   fun _ _ _ _ _ => ⟨rfl, rfl, rfl, rfl⟩,
   fun _ _ _ _ _ => ⟨rfl, rfl, rfl, rfl⟩,
   fun _ _ _ _ _ => ⟨rfl, rfl, rfl, rfl⟩,
   fun _ _ _ _ _ => ⟨rfl, rfl, rfl, rfl⟩⟩

/-- Project one entity's flag out of `loadingStates`. -/
def loadingFlag (ls : LoadingStates) : Entity → Bool
  | .users => ls.users
  | .salaries => ls.salaries
  | .overtimes => ls.overtimes
  | .leaves => ls.leaves

/-- C10: `refreshData` switches each entity's loading flag to `true` right
before its fetch and no action ever dispatches `SET_LOADING false`: after
a fully successful `refreshData` all four flags are `true`, a flag once
`true` survives any further `refreshData`, and none of the thirteen other
store operations touches the loading flags at all. -/
theorem loading_flags_never_reset :
    (∀ s r1 r2 r3 r4,
      (NanoData.refreshData s r1 r2 r3 r4).loadingStates.users = true) ∧
    (∀ s us r2 r3 r4,
      (NanoData.refreshData s (.ok us) r2 r3 r4).loadingStates.salaries = true) ∧
    (∀ s us sa r3 r4,
      (NanoData.refreshData s (.ok us) (.ok sa) r3 r4).loadingStates.overtimes = true) ∧
    (∀ s us sa ov r4,
      (NanoData.refreshData s (.ok us) (.ok sa) (.ok ov) r4).loadingStates.leaves = true) ∧
    (∀ s us sa ov le,
      (NanoData.refreshData s (.ok us) (.ok sa) (.ok ov) (.ok le)).loadingStates =
        { users := true, salaries := true, overtimes := true, leaves := true }) ∧
    (∀ s r1 r2 r3 r4 ent, loadingFlag s.loadingStates ent = true →
      loadingFlag (NanoData.refreshData s r1 r2 r3 r4).loadingStates ent = true) ∧
    (∀ s svc, (NanoData.createUser s svc).1.loadingStates = s.loadingStates) ∧
    (∀ s svc, (NanoData.updateUser s svc).1.loadingStates = s.loadingStates) ∧
    (∀ s id svc, (NanoData.deleteUser s id svc).1.loadingStates = s.loadingStates) ∧
    (∀ s svc, (NanoData.createSalary s svc).1.loadingStates = s.loadingStates) ∧
    (∀ s svc, (NanoData.updateSalary s svc).1.loadingStates = s.loadingStates) ∧
    (∀ s id svc, (NanoData.deleteSalary s id svc).1.loadingStates = s.loadingStates) ∧
    (∀ s svc, (NanoData.createOvertime s svc).1.loadingStates = s.loadingStates) ∧
    (∀ s svc, (NanoData.updateOvertime s svc).1.loadingStates = s.loadingStates) ∧
    (∀ s id svc, (NanoData.deleteOvertime s id svc).1.loadingStates = s.loadingStates) ∧
    (∀ s svc, (NanoData.createLeave s svc).1.loadingStates = s.loadingStates) ∧
    (∀ s svc, (NanoData.updateLeave s svc).1.loadingStates = s.loadingStates) ∧
    (∀ s id svc, (NanoData.deleteLeave s id svc).1.loadingStates = s.loadingStates) ∧
    (∀ s, (NanoData.clearErrors s).loadingStates = s.loadingStates) := by
  refine ⟨?_, ?_, ?_, ?_, fun _ _ _ _ _ => rfl, ?_, ?_, ?_, ?_, ?_, ?_, ?_,
    ?_, ?_, ?_, ?_, ?_, ?_, fun _ => rfl⟩
  · intro s r1 r2 r3 r4
    cases r1 <;> cases r2 <;> cases r3 <;> cases r4 <;> rfl
  · intro s us r2 r3 r4
    cases r2 <;> cases r3 <;> cases r4 <;> rfl
  · intro s us sa r3 r4
    cases r3 <;> cases r4 <;> rfl
  · intro s us sa ov r4
    cases r4 <;> rfl
  · intro s r1 r2 r3 r4 ent h
    cases ent <;> cases r1 <;> cases r2 <;> cases r3 <;> cases r4 <;>
      first | rfl | exact h
  · intro s svc; cases svc <;> rfl
  · intro s svc; cases svc <;> rfl
  · intro s id svc
    cases svc with
    | error e => rfl
    | ok b => cases b <;> rfl
  · intro s svc; cases svc <;> rfl
  · intro s svc; cases svc <;> rfl
  · intro s id svc; cases svc <;> rfl
  · intro s svc; cases svc <;> rfl
  · intro s svc; cases svc <;> rfl
  · intro s id svc; cases svc <;> rfl
  · intro s svc; cases svc <;> rfl
  · intro s svc; cases svc <;> rfl
  · intro s id svc; cases svc <;> rfl

/-- Witness for C10: a `users` flag already `true` survives a `refreshData`
whose very first fetch fails. -/
theorem loading_flags_never_reset_witness :
    loadingFlag (NanoData.refreshData
      { initialState with loadingStates := { users := true } }
      (.error { code := "500", message := "down" }) (.ok []) (.ok [])
      (.ok [])).loadingStates .users = true :=
  loading_flags_never_reset.2.2.2.2.2.1
    { initialState with loadingStates := { users := true } }
    (.error { code := "500", message := "down" }) (.ok []) (.ok []) (.ok [])
    .users rfl

end MesiTakip
